import Mathlib

/-!
Shallow embedding of the core of the `ingesta-datos-publicos` extractors:
the retrying HTTP helpers (`_http_get_with_retries` in
`src/SiMEM/simem_extract_clean.py`, `_retry_get` in
`src/Dane/loader_clean_dane.py`), the flattening / coercion / filtering
layer of the SiMEM cleaner, the pivot step shared by
`src/banrep/banrep_loader_clean_v3.py` and `src/pwt/pwt_loader_clean.py`,
the PWT cache gate, and the DANE orchestrator `run_extraction`.
Network and filesystem boundaries are passed in as explicit function
arguments; machine behaviour (Python truthiness, regex rules, pandas
semantics at the exact call sites) is embedded where the claims depend
on it.
-/

namespace Ingesta

/-! ## Resilient fetch layer -/

/-- Outcome of one physical GET: an HTTP response with a status code, or a
transport-level failure (connection reset / timeout), which `requests.get`
raises as an exception. -/
inductive HttpOutcome where
  | resp (status : Nat)
  | exc
deriving DecidableEq, Repr

/-- Terminal error of a retry helper: an HTTP error carrying a status code, a
transport exception, or the degenerate `raise None` that
`_http_get_with_retries` performs when `max_retries = 0` leaves
`last_exc = None`. -/
inductive FetchErr where
  | http (status : Nat)
  | transport
  | noneRaised
deriving DecidableEq, Repr

/-- Result of a retry helper: a successful status code or a raised error. -/
inductive FetchResult where
  | ok (status : Nat)
  | err (e : FetchErr)
deriving DecidableEq, Repr

/-- Observable trace of a retry helper run: its result, the number of GET
calls issued, and the sequence of sleep durations (in the unit of the
configured backoff). -/
structure FetchTrace where
  result : FetchResult
  gets : Nat
  sleeps : List Nat
deriving DecidableEq, Repr

/-- Loop body of `_http_get_with_retries` (simem_extract_clean.py, lines
102-114).  `attempts` is the remaining list of 1-based attempt numbers
(Python: `for attempt in range(1, max_retries + 1)`), `last` the current
`last_exc`.  A 2xx response returns immediately; any other status or any
exception is recorded in `last_exc`; when further attempts remain the
helper sleeps `backoff * attempt` and retries; after the last attempt it
raises `last_exc`. -/
def simemRetryGo (responses : Nat → HttpOutcome) (backoff : Nat) :
    List Nat → Option FetchErr → FetchTrace
  | [], last => ⟨.err (last.getD .noneRaised), 0, []⟩
  | a :: rest, _ =>
    match responses a with
    | .resp s =>
      if 200 ≤ s ∧ s < 300 then ⟨.ok s, 1, []⟩
      else if rest.isEmpty then ⟨.err (.http s), 1, []⟩
      else
        let t := simemRetryGo responses backoff rest (some (.http s))
        ⟨t.result, t.gets + 1, backoff * a :: t.sleeps⟩
    | .exc =>
      if rest.isEmpty then ⟨.err .transport, 1, []⟩
      else
        let t := simemRetryGo responses backoff rest (some .transport)
        ⟨t.result, t.gets + 1, backoff * a :: t.sleeps⟩

/-- `_http_get_with_retries(url, timeout, max_retries, backoff)`
(simem_extract_clean.py, lines 102-114), with the network modelled by
`responses : attempt number → outcome`. -/
def httpGetWithRetries (responses : Nat → HttpOutcome) (maxRetries backoff : Nat) :
    FetchTrace :=
  simemRetryGo responses backoff (List.range' 1 maxRetries) none

/-- The retryable status codes of `_retry_get` (loader_clean_dane.py, line 88). -/
def daneRetrySet : List Nat := [429, 500, 502, 503, 504]

/-- Loop body of `_retry_get` (loader_clean_dane.py, lines 81-95).  `fuel` is
the number of remaining iterations of `for attempt in range(5)`, `attempt`
the 0-based attempt index, `backoff` the current delay (1.0 initially,
doubled after each retryable failure), `lastStatus` the status of the last
response (used by the final `r.raise_for_status()` after the loop).  A
status < 400 returns; a status in the retry set sleeps and retries; any
other status raises immediately via `r.raise_for_status()`.  Transport
exceptions are not caught and propagate at once. -/
def daneRetryGo (responses : Nat → HttpOutcome) :
    Nat → Nat → Nat → Nat → FetchTrace
  | 0, _, _, lastStatus => ⟨.err (.http lastStatus), 0, []⟩
  | fuel + 1, attempt, backoff, _ =>
    match responses attempt with
    | .exc => ⟨.err .transport, 1, []⟩
    | .resp s =>
      if s < 400 then ⟨.ok s, 1, []⟩
      else if s ∈ daneRetrySet then
        let t := daneRetryGo responses fuel (attempt + 1) (backoff * 2) s
        ⟨t.result, t.gets + 1, backoff :: t.sleeps⟩
      else ⟨.err (.http s), 1, []⟩

/-- `_retry_get(session, url, ...)` (loader_clean_dane.py, lines 81-95): five
attempts, initial backoff 1.0, doubling after each retryable failure. -/
def retryGet (responses : Nat → HttpOutcome) : FetchTrace :=
  daneRetryGo responses 5 0 1 0

/-! ## Canonical renaming (`_snake_case`, simem_extract_clean.py, lines 81-86) -/

/-- ASCII `[a-z0-9]`, the first group of the regex at line 83. -/
def isLowerDigit (c : Char) : Bool :=
  (97 ≤ c.toNat && c.toNat ≤ 122) || (48 ≤ c.toNat && c.toNat ≤ 57)

/-- ASCII `[A-Z]`, the second group of the regex at line 83. -/
def isUpperAscii (c : Char) : Bool :=
  65 ≤ c.toNat && c.toNat ≤ 90

/-- `re.sub(r"([a-z0-9])([A-Z])", r"\1_\2", s)`: insert an underscore at
every lower-or-digit to upper transition.  The regex groups cannot
overlap between matches (the consumed upper-case letter can never open
the next match), so the pairwise rule is exact. -/
def insertUnders : List Char → List Char
  | c1 :: c2 :: rest =>
    if isLowerDigit c1 && isUpperAscii c2 then c1 :: '_' :: insertUnders (c2 :: rest)
    else c1 :: insertUnders (c2 :: rest)
  | l => l

/-- ASCII whitespace (`\s`), hyphen or slash: the class `[\s\-\/]` at line 84. -/
def isWsHyphenSlash (c : Char) : Bool :=
  c.toNat = 32 || (9 ≤ c.toNat && c.toNat ≤ 13) || c = '-' || c = '/'

/-- Run-collapsing scan: `inRun` records whether the previous character
belonged to a run of `bad` characters (in which case further `bad`
characters are absorbed into the same replacement underscore). -/
def collapseAux (bad : Char → Bool) : Bool → List Char → List Char
  | _, [] => []
  | inRun, c :: rest =>
    if bad c then
      if inRun then collapseAux bad true rest
      else '_' :: collapseAux bad true rest
    else c :: collapseAux bad false rest

/-- Collapse every maximal run of characters satisfying `bad` to a single
underscore (the `re.sub(..., "_")` pattern used at simem line 84 and at
pwt `_safe_name`, line 157). -/
def collapseBadRuns (bad : Char → Bool) (l : List Char) : List Char :=
  collapseAux bad false l

/-- Python `s.replace("__", "_")`: one left-to-right non-overlapping pass
(line 85); scanning resumes after each replacement. -/
def replaceDoubleUnders : List Char → List Char
  | '_' :: '_' :: rest => '_' :: replaceDoubleUnders rest
  | c :: rest => c :: replaceDoubleUnders rest
  | [] => []

/-- `_snake_case(name)` (simem_extract_clean.py, lines 81-86): insert
underscores at case transitions, collapse whitespace/hyphen/slash runs to
single underscores, collapse doubled underscores (one pass), lowercase.
Character classes are modelled over ASCII. -/
def snakeCase (name : String) : String :=
  String.mk
    (((replaceDoubleUnders (collapseBadRuns isWsHyphenSlash (insertUnders name.toList)))).map
      Char.toLower)

/-! ## JSON values and record flattening -/

/-- Parsed JSON payload: the tagged union handled by the flattener.  `num`
is modelled over `Int` (the claims only involve integral numbers). -/
inductive Json where
  | null
  | bool (b : Bool)
  | num (n : Int)
  | str (s : String)
  | arr (xs : List Json)
  | obj (kvs : List (String × Json))
deriving Repr

mutual

/-- One pass of the `pd.json_normalize` flattening over the key/value pairs
of a record: nested objects recurse with the key joined by `sep`; every
other value (scalars and arrays alike) is kept as a leaf, exactly as
pandas leaves lists unflattened. -/
def flattenPairs (sep : String) : List (String × Json) → List (String × Json)
  | [] => []
  | (k, v) :: rest => flattenLeaf sep k v ++ flattenPairs sep rest

/-- Flatten one key/value pair: recurse through a nested object, keep any
other value as a leaf under its key. -/
def flattenLeaf (sep : String) (k : String) : Json → List (String × Json)
  | .obj kvs => (flattenPairs sep kvs).map fun p => (k ++ sep ++ p.1, p.2)
  | v => [(k, v)]

end

/-- Append `x` to `acc` unless already present: accumulates first-seen
order. -/
def addFirstSeen {α : Type} [DecidableEq α] (acc : List α) (x : α) : List α :=
  if x ∈ acc then acc else acc ++ [x]

/-- Deduplicate a list keeping the first occurrence of each element. -/
def firstSeenList {α : Type} [DecidableEq α] (l : List α) : List α :=
  l.foldl addFirstSeen []

/-- A rectangular table: ordered column names plus rows of cells aligned
with the columns.  `Json.null` in a cell models the pandas null marker
(`NaN`) used for keys missing from a record. -/
structure JTable where
  columns : List String
  rows : List (List Json)
deriving Repr

/-- `pd.json_normalize(records, sep=sep)` over a list of map-shaped
records: each record is flattened independently, the column set is the
union of the flattened keys across records in first-seen order, and a key
missing from a record yields the null marker in that row. -/
def jsonNormalize (sep : String) (records : List (List (String × Json))) : JTable :=
  let flat := records.map (flattenPairs sep)
  let cols := firstSeenList ((flat.map (fun r => r.map Prod.fst)).flatten)
  { columns := cols
    rows := flat.map fun r =>
      cols.map fun c => (((r.find? fun p => p.1 == c).map Prod.snd).getD .null) }

/-- The flattening call of `fetch_dataset_and_clean`
(simem_extract_clean.py, line 261): `pd.json_normalize(records, sep="_")`. -/
def simemNormalize (records : List (List (String × Json))) : JTable :=
  jsonNormalize "_" records

/-! ## Fallback type inference (`_fallback_infer_types`, simem lines 143-158)

Raw column cells are `Option String` (`none` is a source null, which
`pd.to_datetime` turns into `NaT`); the datetime parser of pandas is
passed in as `parseDT`, returning `none` when a value does not parse.
Timestamps are integers (microseconds since the epoch). -/

/-- A column after fallback inference: committed to datetime, or kept as
(pandas `string`) text. -/
inductive InferredCol where
  | datetime (vals : List (Option Int))
  | text (vals : List (Option String))
deriving DecidableEq, Repr

/-- Whether a column is committed to datetime. -/
def InferredCol.isDatetime : InferredCol → Bool
  | .datetime _ => true
  | .text _ => false

/-- The commit condition of `_fallback_infer_types` (line 148):
`parsed.notna().mean() > 0.9`.  The mean runs over all cells of the
column — original nulls parse to `NaT` and count against the ratio — and
the comparison is strict.  In integers: `10 * parsedCount > 9 * length`. -/
def fallbackCommitsDatetime (parse : String → Bool) (cells : List (Option String)) : Bool :=
  10 * cells.countP (fun c => match c with | none => false | some s => parse s)
    > 9 * cells.length

/-- Modelled from the spec: the claimed commit condition, "at least 90% of
the non-null values parse successfully" — `parsedCount ≥ 0.9 · nonNullCount`,
for comparison with `fallbackCommitsDatetime`. -/
def specCommitsDatetime (parse : String → Bool) (cells : List (Option String)) : Bool :=
  10 * cells.countP (fun c => match c with | none => false | some s => parse s)
    ≥ 9 * cells.countP Option.isSome

/-- Per-column body of `_fallback_infer_types` (lines 145-155): try
`pd.to_datetime(col, errors="coerce")`; if the commit condition holds keep
the parsed column, else keep the column as text (`astype("string")`,
stripped when `strip_text`).  The raw cells are object-dtype strings, so
the text branch always applies its `astype`/`strip`. -/
def fallbackInferColumn (parseDT : String → Option Int) (strip : Bool)
    (cells : List (Option String)) : InferredCol :=
  let parsed := cells.map fun c => c.bind parseDT
  if 10 * parsed.countP Option.isSome > 9 * parsed.length then .datetime parsed
  else .text (cells.map (Option.map fun s => if strip then s.trim else s))

/-- `_fallback_infer_types(df, to_snake, strip_text)` (lines 143-158): infer
every column independently, then rename to snake_case when enabled. -/
def fallbackInferTypes (parseDT : String → Option Int)
    (df : List (String × List (Option String))) (toSnake strip : Bool) :
    List (String × InferredCol) :=
  df.map fun col =>
    ((if toSnake then snakeCase col.1 else col.1), fallbackInferColumn parseDT strip col.2)

/-! ## Schema-driven coercion (`_map_types_by_schema`, simem lines 117-140) -/

/-- A coerced cell: a calendar date (datetime truncated to its day), a
timestamp, or text.  `none` inside is the null produced for an unparsable
value. -/
inductive CoercedCell where
  | date (t : Option Int)
  | datetime (t : Option Int)
  | text (s : Option String)
deriving DecidableEq, Repr

/-- `_norm(s) = s.strip().lower()` (line 121). -/
def normKey (s : String) : String := s.trim.toLower

/-- Build the `idx` dictionary of lines 123-124 from the `result.columns`
schema block: entries with a truthy `nameColumn` map its normalised name
to the lowercased `dataType` (`None` read as `""`).  Later entries are
prepended so that lookup (head-first) matches the dict's last-wins
overwrite. -/
def buildIdx (schemaCols : List (Option String × Option String)) : List (String × String) :=
  schemaCols.foldl
    (fun m c =>
      match c.1 with
      | some n => if n = "" then m else (normKey n, (c.2.getD "").toLower) :: m
      | none => m)
    []

/-- `idx.get(key)` restricted to the `dataType` component (line 128). -/
def lookupDtype (idx : List (String × String)) (k : String) : Option String :=
  (idx.find? fun p => p.1 == k).map Prod.snd

/-- Number of microseconds in a day, used to truncate a timestamp to its
calendar date (`.dt.date`, line 130). -/
def dayMicros : Int := 86400000000

/-- Coerce one cell according to the declared `dataType` (lines 129-136):
`"fecha"` parses to a datetime and truncates to the date, `"fecha hora"`
parses to a timestamp, anything else (including columns absent from the
schema) becomes text, stripped when `strip_text`.  Unparsable values
surface as `none` (`errors="coerce"`); coercion is total — no cell value
makes it fail. -/
def coerceCell (parseDT : String → Option Int) (strip : Bool) (dtype : Option String)
    (c : Option String) : CoercedCell :=
  match dtype with
  | some "fecha" => .date ((c.bind parseDT).map fun t => t - t % dayMicros)
  | some "fecha hora" => .datetime (c.bind parseDT)
  | _ => .text (c.map fun s => if strip then s.trim else s)

/-- `_map_types_by_schema(df, schema_columns, to_snake, strip_text)`
(lines 117-140): coerce every column by its (case-insensitively matched)
declared type, then rename to snake_case when enabled.  The pandas
`rename` at line 139 never raises, even when two columns collide on the
same new name, so the whole function is total. -/
def mapTypesBySchema (parseDT : String → Option Int)
    (df : List (String × List (Option String)))
    (schemaCols : List (Option String × Option String)) (toSnake strip : Bool) :
    List (String × List CoercedCell) :=
  let idx := buildIdx schemaCols
  df.map fun col =>
    ((if toSnake then snakeCase col.1 else col.1),
     col.2.map (coerceCell parseDT strip (lookupDtype idx (normKey col.1))))

/-! ## Client-side date-range filter (`_apply_client_date_filter`, simem
lines 184-211)

Column resolution and parsing (lines 187-202) precede the range test; the
filter below takes the already-parsed datetime column, one `Option Int`
timestamp (microseconds) per row, `none` being `NaT`. -/

/-- The `Timedelta(hours=23, minutes=59, seconds=59, microseconds=999999)`
added to the end bound at line 210, in microseconds. -/
def endOfDayDelta : Int := 86399999999

/-- The row mask of lines 205-210: start as all-true; `s >= start` when a
start bound is given and `s <= end + endOfDayDelta` when an end bound is
given.  `NaT` compares false against either bound, as in pandas. -/
def dateMask (start endB : Option Int) : Option Int → Bool
  | none => start.isNone && endB.isNone
  | some t =>
    (match start with
     | none => true
     | some a => decide (a ≤ t)) &&
    (match endB with
     | none => true
     | some b => decide (t ≤ b + endOfDayDelta))

/-- `df.loc[mask]` of line 211, restricted to the datetime column. -/
def applyClientDateFilter (rows : List (Option Int)) (start endB : Option Int) :
    List (Option Int) :=
  rows.filter (dateMask start endB)

/-- `pd.to_datetime("2025-01-10")` in microseconds since the epoch. -/
def jan10_2025 : Int := 1736467200000000

/-- `pd.to_datetime("2025-01-11")` (midnight starting the next calendar
day) in microseconds since the epoch. -/
def jan11_2025 : Int := 1736553600000000

/-! ## Column subset (`fetch_dataset_and_clean`, simem lines 281-290) -/

/-- The subset step: canonicalise the requested names with `_snake_case`
when snake-casing is enabled, warn about (and drop) requested names not
present, and keep the intersection in requested order — except that when
the intersection is empty the `if keep:` guard at line 289 skips
subsetting and the table keeps all its columns. -/
def subsetColumns (cols : List String) (subset : List String) (toSnake : Bool) :
    List String :=
  let finalCols := subset.map fun c => if toSnake then snakeCase c else c
  let keep := finalCols.filter fun c => decide (c ∈ cols)
  if keep.isEmpty then cols else keep

/-! ## Long-to-wide pivot (`pivot_table(..., aggfunc="first")`)

Shared semantics of the two pivot call sites:
`consolidate` (banrep_loader_clean_v3.py, line 187) with index `date` and
columns `"FLOW_ID :: series_name"`, and `_build_views`
(pwt_loader_clean.py, lines 259-264) with index
`(iso, country, variable_code, variable_name)` and columns `year`.
A source row is `(entity key, series label, value)`, each component
nullable — values are nullable at both call sites (`pd.to_numeric(...,
errors="coerce")` in banrep, the melt of a sparse panel in pwt) and the
banrep `date` index can be `NaT`.  Pandas semantics at these calls:
`groupby` on the index/column keys drops rows with a null key,
`aggfunc="first"` (`GroupBy.first`) returns the first NON-null value of
each group in row order, and the `agged.dropna(how="all")` step inside
`pivot_table` removes groups with no non-null value, so an entity
appears as a wide row exactly when it has at least one populated cell. -/

/-- The entity key of a source row that survives the pivot: both group
keys non-null and the value non-null (a fully-null-valued group is
dropped by `pivot_table`). -/
def populatedKey {E S V : Type} : Option E × Option S × Option V → Option E
  | (some e, some _, some _) => some e
  | _ => none

/-- The distinct entity keys of the wide table: entities owning at least
one populated cell.  `pivot_table` additionally sorts the index, which
the uniqueness and coverage properties do not depend on. -/
def pivotRowKeys {E S V : Type} [DecidableEq E]
    (rows : List (Option E × Option S × Option V)) : List E :=
  firstSeenList (rows.filterMap populatedKey)

/-- The wide cell at `(e, s)`: the first non-null value among the source
rows with that (non-null) entity key and series label — `GroupBy.first`
skips nulls — and `none` when the group is missing or never populated. -/
def pivotFirstCell {E S V : Type} [DecidableEq E] [DecidableEq S]
    (rows : List (Option E × Option S × Option V)) (e : E) (s : S) : Option V :=
  ((rows.filter fun r => decide (r.1 = some e ∧ r.2.1 = some s)).filterMap
    fun r => r.2.2).head?

/-- Modelled from the spec: the claimed tie-break, "the collision resolves
to the first value encountered" — the cell carries the value of the
positionally first matching source row, even when that value is null.
For comparison with `pivotFirstCell`. -/
def specPivotFirstCell {E S V : Type} [DecidableEq E] [DecidableEq S]
    (rows : List (Option E × Option S × Option V)) (e : E) (s : S) : Option V :=
  (rows.find? fun r => decide (r.1 = some e ∧ r.2.1 = some s)).bind fun r => r.2.2

/-- The wide-column label of `consolidate` (banrep, lines 182-185):
`f"{flow_id} :: {series_name}"`, with the fallback label when
`series_name` is null. -/
def banrepSeriesCol (flowId : String) (seriesName : Option String) : String :=
  match seriesName with
  | some s => flowId ++ " :: " ++ s
  | none => flowId ++ " :: series"

/-- The wide pivot of `consolidate` (banrep, line 187): index `date`
(nullable, `NaT` rows dropped), columns the always-present
`banrepSeriesCol` label, values the `to_numeric`-coerced (nullable)
`value`, `aggfunc="first"`. -/
def consolidateWideCell (rows : List (Option Int × String × Option String × Option Int))
    (dateIdx : Int) (col : String) : Option Int :=
  pivotFirstCell (rows.map fun r => (r.1, some (banrepSeriesCol r.2.1 r.2.2.1), r.2.2.2))
    dateIdx col

/-! ## Cache gate (`_maybe_use_cache`, pwt_loader_clean.py, lines 220-232) -/

/-- The metadata of one remote file (`FileMeta`, pwt lines 128-134). -/
structure FileMeta where
  id : Nat
  label : String
  contentType : String := ""
  size : Option Nat := none
  checksum : Option String := none
deriving DecidableEq, Repr

/-- ASCII `[\w\-.]`: the characters `_safe_name` keeps (pwt line 157). -/
def isSafeChar (c : Char) : Bool :=
  c.isAlphanum || c = '_' || c = '-' || c = '.'

/-- `_safe_name(name)` (pwt lines 156-157): strip, then collapse every run
of non-`[\w\-.]` characters to a single underscore. -/
def safeName (s : String) : String :=
  String.mk (collapseBadRuns (fun c => !isSafeChar c) s.trim.toList)

/-- `_maybe_use_cache(out_dir, meta)` (pwt lines 220-232), with the
filesystem modelled as `fs : path → Option bytes` and the `hashlib.md5`
digest as `md5`.  No local file → miss; a remote checksum gates reuse
(match → hit, mismatch → stale, miss); no remote checksum → presence
alone is a hit. -/
def maybeUseCache (md5 : List Nat → String) (fs : String → Option (List Nat))
    (outDir : String) (meta : FileMeta) : Option (List Nat) :=
  match fs (outDir ++ "/" ++ safeName meta.label) with
  | none => none
  | some bytes =>
    match meta.checksum with
    | some c => if md5 bytes = c then some bytes else none
    | none => some bytes

/-! ## DANE orchestrator (`run_extraction`, loader_clean_dane.py, lines 261-350)

The parsed metadata of one study is an arbitrary `Json` payload
(`r.json()`); `export_metadata` is the network boundary, passed in as an
oracle that either returns a payload or raises a fetch error. -/

/-- Python truthiness of a JSON value. -/
def Json.truthy : Json → Bool
  | .null => false
  | .bool b => b
  | .num n => n != 0
  | .str s => s != ""
  | .arr xs => !xs.isEmpty
  | .obj kvs => !kvs.isEmpty

/-- Python `a or b`: the left operand when truthy, else the right. -/
def jOr (a b : Json) : Json := if a.truthy then a else b

/-- `d.get(k)` on a parsed payload: the value under key `k` when `d` is an
object holding it, else Python `None` (`Json.null`).  Lookup takes the
first matching key; parsed JSON objects have unique keys. -/
def jget (d : Json) (k : String) : Json :=
  match d with
  | .obj kvs => ((kvs.find? fun p => p.1 == k).map Prod.snd).getD .null
  | _ => .null

/-- `_get(d, *keys, default=...)` (loader_clean_dane.py, lines 31-44):
tolerant nested access.  A `None` along the path, a non-dict along the
path, or a missing key yields `default`; a final `None` result also
yields `default`. -/
def pyGet (default : Json) : Json → List String → Json
  | .null, [] => default
  | cur, [] => cur
  | .null, _ :: _ => default
  | .obj kvs, k :: rest =>
    pyGet default (((kvs.find? fun p => p.1 == k).map Prod.snd).getD default) rest
  | _, _ :: _ => default

/-- `_norm_list(x)` (lines 47-52): `None` to `[]`, a list to itself,
anything else wrapped in a singleton. -/
def normList : Json → List Json
  | .null => []
  | .arr xs => xs
  | x => [x]

/-- The exceptions the DANE parse helpers can raise on malformed payloads:
`AttributeError` (`.get` on a non-dict, `.strip()` on a non-string) and
`TypeError` (`str.join` over a non-string element). -/
inductive PyExc where
  | attributeError
  | typeError
deriving DecidableEq, Repr

/-- `d.get(k)` where the source has NOT guarded `d`'s shape: on a dict it
returns the value under `k` (Python `None`, `Json.null`, when missing);
on anything else CPython raises `AttributeError`. -/
def jgetE (d : Json) (k : String) : Except PyExc Json :=
  match d with
  | .obj kvs => .ok (((kvs.find? fun p => p.1 == k).map Prod.snd).getD .null)
  | _ => .error .attributeError

/-- Python `x.strip()` on the result of an `... or ""` chain: strips a
string, raises `AttributeError` on a (truthy) non-string. -/
def pyStrip (j : Json) : Except PyExc String :=
  match j with
  | .str s => .ok s.trim
  | _ => .error .attributeError

/-- The string content of a JSON value, when it is a string. -/
def Json.asStr? : Json → Option String
  | .str s => some s
  | _ => none

/-- Python `sep.join(xs)` over JSON values: joins when every element is a
string, raises `TypeError` otherwise. -/
def joinStrsE (sep : String) (xs : List Json) : Except PyExc String :=
  match xs.mapM Json.asStr? with
  | some ss => .ok (String.intercalate sep ss)
  | none => .error .typeError

/-- `"; ".join([x for x in xs if x])` (lines 182-185): keep the truthy
elements, then join — raising `TypeError` when a kept element is not a
string. -/
def joinTruthyE (xs : List Json) : Except PyExc String :=
  joinStrsE "; " (xs.filter Json.truthy)

/-- `str(x)` of a scalar JSON value as CPython renders it. -/
def pyStr : Json → String
  | .num n => toString n
  | .str s => s
  | .bool true => "True"
  | .bool false => "False"
  | .null => "None"
  | _ => ""

/-- `x.isdigit()` over ASCII: non-empty and all decimal digits. -/
def isDigits (s : String) : Bool :=
  !s.isEmpty && s.toList.all fun c => 48 ≤ c.toNat && c.toNat ≤ 57

/-- `int(x)` for the values the source feeds it after an `isdigit` guard:
a JSON number stays itself, a digit string parses. -/
def pyInt (x : Json) : Int :=
  match x with
  | .num n => n
  | .str s => Int.ofNat (s.toNat?.getD 0)
  | _ => 0

/-- JSON string escaping as in `json.dumps` for the quote and backslash
(the model leaves other control characters unescaped). -/
def jsonEscape (s : String) : String :=
  String.join (s.toList.map fun c =>
    if c = '"' then "\\\"" else if c = '\\' then "\\\\" else String.singleton c)

mutual

/-- `json.dumps(v, ensure_ascii=False)` with the default separators
`", "` and `": "`. -/
def jsonDumps : Json → String
  | .null => "null"
  | .bool true => "true"
  | .bool false => "false"
  | .num n => toString n
  | .str s => "\"" ++ jsonEscape s ++ "\""
  | .arr xs => "[" ++ jsonDumpsList xs ++ "]"
  | .obj kvs => "\x7b" ++ jsonDumpsObj kvs ++ "\x7d"

/-- Comma-joined array elements for `jsonDumps`. -/
def jsonDumpsList : List Json → String
  | [] => ""
  | [x] => jsonDumps x
  | x :: y :: rest => jsonDumps x ++ ", " ++ jsonDumpsList (y :: rest)

/-- Comma-joined `"key": value` pairs for `jsonDumps`. -/
def jsonDumpsObj : List (String × Json) → String
  | [] => ""
  | [(k, v)] => "\"" ++ jsonEscape k ++ "\": " ++ jsonDumps v
  | (k, v) :: p :: rest =>
    "\"" ++ jsonEscape k ++ "\": " ++ jsonDumps v ++ ", " ++ jsonDumpsObj (p :: rest)

end

/-- `_normalize_categories(cat)` (lines 55-78): count the categories and
render them as the compact JSON of `[(value, label)]` items, reading
`var_catgry`/`categories` and `value|cat_val` / `label|cat_lab`
variants; `(None, None)` when nothing usable exists.  The whole body sits
in a `try`/`except Exception` returning `(None, None)`, so a non-dict
element (whose `c.get` would raise `AttributeError`) also yields
`(None, None)` rather than propagating. -/
def normalizeCategories (cat : Json) : Option Nat × Option String :=
  match cat with
  | .null => (none, none)
  | c =>
    let src : Option (List Json) :=
      match c with
      | .obj _ =>
        (match jget c "var_catgry" with
         | .arr xs => some xs
         | _ => none)
      | .arr xs => some xs
      | _ => none
    match src with
    | none => (none, none)
    | some items =>
      let pairsOpt := items.mapM fun it =>
        match it with
        | .obj _ =>
          some (jOr (jget it "value") (jget it "cat_val"),
            jOr (jget it "label") (jget it "cat_lab"))
        | _ => none
      match pairsOpt with
      | none => (none, none)
      | some pairs =>
        if pairs.isEmpty then (none, none)
        else
          (some pairs.length,
           some (jsonDumps (.arr (pairs.map fun p => .obj [("value", p.1), ("label", p.2)]))))

/-- One study-level row (`parse_study` output dict, lines 166-194). -/
structure StudyRow where
  study_id : Nat
  idno : Json
  title : Json
  sub_title : Json
  nation : Json
  abbreviation : Json
  year_start : Json
  year_end : Json
  proddate : Json
  repositoryid : Json
  version : Json
  abstract : Json
  data_kind : Json
  geog_coverage : Json
  universe_study : Json
  keywords : String
  topics : String
  producers : String
  funding : String
  access_policy : Json
  confidentiality : Json
  conditions : Json
  disclaimer : Json
  citation_requirement : Json
  doi : Json
deriving Repr

/-- `parse_study(md, study_id)` (lines 156-194).  The source is not total:
`md.get` raises when the payload is not a dict; `sd.get`/`da.get` raise
when a truthy non-dict `study_desc`/`data_access` is reached;
`k.get`-style access inside the keyword/topic/producer/funding
comprehensions raises on non-dict elements; and the `"; ".join(...)`
calls raise on truthy non-string elements.  Steps are sequenced in source
evaluation order (lines 158-164, then the dict literal, lines 166-194);
`_get` is total (its body catches every exception). -/
def parse_study (md : Json) (studyId : Nat) : Except PyExc StudyRow := do
  let sdRaw ← jgetE md "study_desc"
  let sd := if sdRaw.truthy then sdRaw else Json.obj []
  let daRaw ← jgetE md "data_access"
  let da ←
    if daRaw.truthy then pure daRaw
    else do
      let d2 ← jgetE sd "data_access"
      pure (if d2.truthy then d2 else Json.obj [])
  let title := jOr (jget md "title") (pyGet (.str "") sd ["title_statement", "title"])
  let keywords ← (normList (pyGet .null sd ["keywords", "keyword"])).mapM fun k => do
    let a ← jgetE k "keyword"
    if a.truthy then pure a else jgetE k "value"
  let topics ← (normList (pyGet .null sd ["study_info", "topics", "topic"])).mapM fun t => do
    let a ← jgetE t "topic"
    if a.truthy then pure a else jgetE t "value"
  let producers ←
    (normList (pyGet .null sd ["production_statement", "producers", "producer"])).mapM
      fun p => jgetE p "name"
  let funding ← (normList (pyGet .null sd ["funding", "agency"])).mapM fun f => do
    let a ← jgetE f "name"
    if a.truthy then pure a else jgetE f "agency"
  let kwJoin ← joinTruthyE keywords
  let tpJoin ← joinTruthyE topics
  let prJoin ← joinTruthyE producers
  let fdJoin ← joinTruthyE funding
  let ap1 ← jgetE da "access_policy"
  let accessPolicy ← if ap1.truthy then pure ap1 else jgetE da "dataset_availability"
  let cf1 ← jgetE da "confidentiality"
  let confidentiality :=
    if cf1.truthy then cf1 else pyGet .null sd ["data_access", "confidentiality"]
  let conditions ← jgetE da "conditions"
  let disclaimer ← jgetE da "disclaimer"
  let cr1 ← jgetE da "cit_req"
  let citReq ← if cr1.truthy then pure cr1 else jgetE da "citation_requirements"
  pure
    { study_id := studyId
      idno := jOr (jget md "idno") (pyGet .null sd ["title_statement", "idno"])
      title := title
      sub_title := pyGet .null sd ["title_statement", "sub_title"]
      nation := pyGet .null sd ["study_info", "nation", "name"]
      abbreviation := pyGet .null sd ["title_statement", "alternate_title"]
      year_start := pyGet .null sd ["study_info", "dates", "start"]
      year_end := pyGet .null sd ["study_info", "dates", "end"]
      proddate := jOr (jget md "proddate") (pyGet .null sd ["production_statement", "prod_date"])
      repositoryid := jget md "repositoryid"
      version := jOr (jget md "version") (pyGet .null sd ["version_statement", "version"])
      abstract := pyGet .null sd ["study_info", "abstract"]
      data_kind := pyGet .null sd ["study_info", "data_kind"]
      geog_coverage := pyGet .null sd ["study_info", "geog_coverage"]
      universe_study := pyGet .null sd ["study_info", "universe"]
      keywords := kwJoin
      topics := tpJoin
      producers := prJoin
      funding := fdJoin
      access_policy := accessPolicy
      confidentiality := confidentiality
      conditions := conditions
      disclaimer := disclaimer
      citation_requirement := citReq
      doi := jOr (jget md "doi") (pyGet .null sd ["citation", "titlstat", "doi"]) }

/-- One variable-level row (`parse_variables` output dict, lines 237-256). -/
structure VarRow where
  study_id : Nat
  study_title : Json
  var_id : Json
  var_name : String
  var_label : String
  var_type : Json
  var_dcml : Json
  var_intrvl : Json
  var_wgt : Json
  file_ids : Option String
  file_names : Option String
  universeTxt : Json
  q_preqtext : Json
  q_qstnlit : Json
  q_postqtxt : Json
  notes : Json
  n_categories : Option Nat
  categories_json : Option String
deriving Repr

/-- `file_map.get(fid, "")` (line 248) over the dict built at line 201:
later duplicate `file_id` keys overwrite earlier ones, and the integer
`fid` only matches numeric keys. -/
def lookupFileName (fileMap : List (Json × Json)) (fid : Int) : Json :=
  ((fileMap.reverse.find? fun p =>
      match p.1 with
      | .num n => n == fid
      | _ => false).map Prod.snd).getD (.str "")

/-- `parse_variables(md, study_id)` (lines 197-257).  The source is not
total: `md.get("title")` raises on a non-dict payload, `f.get`/`v.get`
raise on non-dict file/variable entries, the `.strip()` calls at lines
209 and 213 raise `AttributeError` on a truthy non-string name/label,
and the `";".join(file_map.get(fid, ""))` at line 248 raises `TypeError`
when a looked-up file name is not a string (e.g. a null `file_name`).
Steps are sequenced in source evaluation order; a variable whose
stripped name is empty is skipped (`continue`). -/
def parse_variables (md : Json) (studyId : Nat) : Except PyExc (List VarRow) := do
  let t0 ← jgetE md "title"
  let title := if t0.truthy then t0 else pyGet (.str "") md ["study_desc", "title_statement", "title"]
  let files : List Json :=
    match jget md "files" with
    | .arr xs => xs
    | _ => []
  let fileMapAll ← files.mapM fun f => do
    let fid ← jgetE f "file_id"
    let fname ← jgetE f "file_name"
    pure (fid, fname)
  let fileMap := fileMapAll.filter fun p =>
    match p.1 with
    | .null => false
    | _ => true
  let varList : List Json :=
    match jOr (jget md "variables") (.arr []) with
    | .arr xs => xs
    | _ => []
  let rowsOpt ← varList.mapM fun v => do
    let n1 ← jgetE v "name"
    let n2 ← if n1.truthy then pure n1 else jgetE v "var_name"
    let vname ← pyStrip (if n2.truthy then n2 else .str "")
    if vname = "" then pure none
    else do
      let l1 ← jgetE v "labl"
      let l2 ← if l1.truthy then pure l1 else jgetE v "var_label"
      let l3 ← if l2.truthy then pure l2 else jgetE v "label"
      let vlabel ← pyStrip (if l3.truthy then l3 else .str "")
      let ty1 ← jgetE v "var_format"
      let ty2 ← if ty1.truthy then pure ty1 else jgetE v "type"
      let ty3 ← if ty2.truthy then pure ty2 else jgetE v "vartype"
      let vtype := if ty3.truthy then ty3 else Json.str ""
      let vdcml ← jgetE v "var_dcml"
      let vintr ← jgetE v "var_intrvl"
      let vwgt ← jgetE v "var_wgt"
      let u1 ← jgetE v "universe"
      let u2 ← if u1.truthy then pure u1 else jgetE v "universe_txt"
      let vuniv := if u2.truthy then u2 else Json.str ""
      let p1 := pyGet .null v ["qstn", "qstn_preqtext"]
      let p2 ← if p1.truthy then pure p1 else jgetE v "qstn_preqtext"
      let preq := if p2.truthy then p2 else Json.str ""
      let q1 := pyGet .null v ["qstn", "qstn_qstnlit"]
      let q2 ← if q1.truthy then pure q1 else jgetE v "qstn_qstnlit"
      let qlit := if q2.truthy then q2 else Json.str ""
      let g1 := pyGet .null v ["qstn", "qstn_postqtxt"]
      let g2 ← if g1.truthy then pure g1 else jgetE v "qstn_postqtxt"
      let postq := if g2.truthy then g2 else Json.str ""
      let nt1 ← jgetE v "notes"
      let nt2 ← if nt1.truthy then pure nt1 else jgetE v "txt"
      let notes := if nt2.truthy then nt2 else Json.str ""
      let vf1 ← jgetE v "files"
      let vfiles ← if vf1.truthy then pure vf1 else jgetE v "file_id"
      let vFileIds : List Int :=
        match vfiles with
        | .arr xs => (xs.filter fun x => isDigits (pyStr x)).map pyInt
        | .num n => [n]
        | _ => []
      let c1 ← jgetE v "var_catgry"
      let cats0 ← if c1.truthy then pure c1 else jgetE v "categories"
      let cats := normalizeCategories cats0
      let vr1 ← jgetE v "vid"
      let vr2 ← if vr1.truthy then pure vr1 else jgetE v "uid"
      let varId ← if vr2.truthy then pure vr2 else jgetE v "id"
      let fileNames ←
        if vFileIds.isEmpty then pure none
        else do
          let s ← joinStrsE ";" (vFileIds.map fun fid => lookupFileName fileMap fid)
          pure (some s)
      pure (some
        { study_id := studyId
          study_title := title
          var_id := varId
          var_name := vname
          var_label := vlabel
          var_type := vtype
          var_dcml := vdcml
          var_intrvl := vintr
          var_wgt := vwgt
          file_ids :=
            if vFileIds.isEmpty then none
            else some (String.intercalate ";" (vFileIds.map toString))
          file_names := fileNames
          universeTxt := vuniv
          q_preqtext := preq
          q_qstnlit := qlit
          q_postqtxt := postq
          notes := notes
          n_categories := cats.1
          categories_json := cats.2 })
  pure (rowsOpt.filterMap id)

/-- Transport-or-HTTP exception propagating out of `export_metadata`
(through `_retry_get`). -/
inductive FetchExc where
  | http (status : Nat)
  | transport
deriving DecidableEq, Repr

/-- The exceptions `run_extraction` can let escape: the `ValueError` of
line 291 (neither `sid_list` nor `q` given), the `RuntimeError` of line
297 (no studies resolved), an uncaught fetch exception from
`export_metadata`, or an uncaught `AttributeError`/`TypeError` from
`parse_study`/`parse_variables` on a malformed payload — the per-unit
loop has no handler for any of them. -/
inductive RunErr where
  | valueError
  | runtimeNoStudies
  | fetchFailure (e : FetchExc)
  | parseFailure (e : PyExc)
deriving DecidableEq, Repr

/-- The variable filters of lines 318-330, applied to one row.  The
compiled regexes `name_rx`/`lab_rx` are modelled as their match
predicates; `name_set` is already lowercased by the caller. -/
def varFilterOk (nameSet : Option (List String)) (nameRx labRx : Option (String → Bool))
    (fileSet : Option (List Int)) (r : VarRow) : Bool :=
  let ok1 :=
    match nameSet with
    | none => true
    | some ns => ns.contains r.var_name.toLower
  let ok2 := ok1 &&
    (match nameRx with
     | none => true
     | some f => f r.var_name)
  let ok3 := ok2 &&
    (match labRx with
     | none => true
     | some f => f r.var_label)
  ok3 &&
    (match fileSet with
     | none => true
     | some fs =>
       if fs.isEmpty then true
       else
         (((r.file_ids.getD "").splitOn ";").filter isDigits).any fun x =>
           fs.contains (Int.ofNat (x.toNat?.getD 0)))

/-- The per-unit loop of `run_extraction` (lines 307-333): fetch the
metadata of each study in turn, append its study row, parse and filter
its variable rows.  The loop body has no `try`/`except`, so a fetch
exception — or an `AttributeError`/`TypeError` raised by
`parse_study`/`parse_variables` on a malformed payload — aborts the
remaining units. -/
def runLoop (exportMetadata : Nat → Except FetchExc Json)
    (nameSet : Option (List String)) (nameRx labRx : Option (String → Bool))
    (fileSet : Option (List Int)) :
    List VarRow × List StudyRow → List Nat → Except RunErr (List VarRow × List StudyRow)
  | acc, [] => .ok acc
  | acc, sid :: rest =>
    match exportMetadata sid with
    | .error e => .error (.fetchFailure e)
    | .ok md =>
      match parse_study md sid with
      | .error e => .error (.parseFailure e)
      | .ok study =>
        match parse_variables md sid with
        | .error e => .error (.parseFailure e)
        | .ok rows =>
          runLoop exportMetadata nameSet nameRx labRx fileSet
            (acc.1 ++ rows.filter (varFilterOk nameSet nameRx labRx fileSet),
             acc.2 ++ [study]) rest

/-- `set(file_ids_filter) if file_ids_filter else None` (line 305): a
missing or empty filter list is treated as no filter. -/
def truthyFileSet (fileIdsFilter : Option (List Int)) : Option (List Int) :=
  match fileIdsFilter with
  | some (x :: xs) => some (x :: xs)
  | _ => none

/-- `run_extraction` (lines 261-350): resolve the study ids (a truthy
`sid_list` wins; else a truthy `q` triggers the catalog search, modelled
by the `searchCatalog` oracle; else `ValueError`), fail when no study
resolves, then run the per-unit loop and return `(df_vars, df_studies)`
as the two row lists. -/
def runExtraction (exportMetadata : Nat → Except FetchExc Json) (searchCatalog : List Nat)
    (q : Option String) (sidList : Option (List Nat)) (varNames : Option (List String))
    (nameRx labRx : Option (String → Bool)) (fileIdsFilter : Option (List Int)) :
    Except RunErr (List VarRow × List StudyRow) :=
  let resolved : Except RunErr (List Nat) :=
    if (sidList.getD []).isEmpty then
      match q with
      | some qq => if qq = "" then .error .valueError else .ok searchCatalog
      | none => .error .valueError
    else .ok (sidList.getD [])
  match resolved with
  | .error e => .error e
  | .ok studyIds =>
    if studyIds.isEmpty then .error .runtimeNoStudies
    else
      let nameSet := varNames.map fun l => l.map (fun s => s.toLower)
      runLoop exportMetadata nameSet nameRx labRx (truthyFileSet fileIdsFilter) ([], []) studyIds

/-- One unit processes cleanly: its metadata fetch succeeds and the
returned payload makes both `parse_study` and `parse_variables` complete
without raising. -/
def unitSucceeds (em : Nat → Except FetchExc Json) (sid : Nat) : Prop :=
  ∃ md st rows, em sid = .ok md ∧ parse_study md sid = .ok st ∧
    parse_variables md sid = .ok rows

/-! ## Lemmas about the retry loops -/

/-- Behaviour of the SiMEM retry loop against a source constantly answering
one non-2xx status: every attempt issues a GET, every attempt but the
last sleeps `backoff * attempt`, and the loop ends raising the status. -/
lemma simemRetryGo_const (s b : Nat) (hs : ¬ (200 ≤ s ∧ s < 300)) (l : List Nat) :
    ∀ last : Option FetchErr,
      (simemRetryGo (fun _ => .resp s) b l last).gets = l.length ∧
      (simemRetryGo (fun _ => .resp s) b l last).sleeps
        = l.dropLast.map (fun a => b * a) ∧
      (l ≠ [] → (simemRetryGo (fun _ => .resp s) b l last).result
        = .err (.http s)) := by
  induction l with
  | nil => intro last; simp [simemRetryGo]
  | cons a rest ih =>
    intro last
    by_cases hrest : rest = []
    · subst hrest
      simp [simemRetryGo, hs]
    · obtain ⟨hg, hsl, hr⟩ := ih (some (.http s))
      have hie : rest.isEmpty = false := by simpa [List.isEmpty_iff] using hrest
      refine ⟨?_, ?_, fun _ => ?_⟩ <;>
        simp only [simemRetryGo, hs, if_false, hie, Bool.false_eq_true, List.length_cons,
          List.dropLast_cons_of_ne_nil hrest, List.map_cons] <;>
        simp [hg, hsl, hr hrest]

/-- Dropping the last element of `[a, a+1, …, a+n-1]`. -/
lemma range'_dropLast (n : Nat) : ∀ a : Nat, (List.range' a n).dropLast = List.range' a (n - 1) := by
  induction n with
  | zero => intro a; simp
  | succ m ih =>
    intro a
    cases m with
    | zero => simp [List.range'_succ]
    | succ k =>
      have hne : List.range' (a + 1) (k + 1) ≠ [] := by simp
      rw [List.range'_succ, List.dropLast_cons_of_ne_nil hne, ih (a + 1)]
      simp [List.range'_succ]

/-! ## Claim theorems: resilient fetcher -/

/-- Claim C2, counterexample: the SiMEM helper `_http_get_with_retries`
does NOT surface a 4xx (≠ 429) immediately — against a source constantly
answering 404 with `max_retries = 3` it issues 3 GET calls, not 1: every
non-2xx status is retried. -/
theorem simem_retries_on_404_counterexample :
    (httpGetWithRetries (fun _ => .resp 404) 3 2).gets = 3 ∧
    ¬ (httpGetWithRetries (fun _ => .resp 404) 3 2).gets = 1 := by
  decide

/-- Claim C2 (amended): the DANE helper `_retry_get` surfaces a 4xx status
other than 429 immediately — exactly one GET, error carrying the status —
while the SiMEM helper `_http_get_with_retries` keeps retrying any
constant non-2xx status (4xx included) until `max_retries` GETs have been
issued. -/
theorem fatal_4xx_immediate_amended :
    (∀ (responses : Nat → HttpOutcome) (s : Nat),
        responses 0 = .resp s → 400 ≤ s → s ∉ daneRetrySet →
        (retryGet responses).gets = 1 ∧
        (retryGet responses).result = .err (.http s)) ∧
    (∀ (s maxRetries backoff : Nat), 1 ≤ maxRetries → ¬ (200 ≤ s ∧ s < 300) →
        (httpGetWithRetries (fun _ => .resp s) maxRetries backoff).gets = maxRetries) := by
  constructor
  · intro responses s h0 h400 hset
    have hlt : ¬ s < 400 := by omega
    refine ⟨?_, ?_⟩ <;> simp [retryGet, daneRetryGo, h0, hlt, hset]
  · intro s maxRetries backoff _ hs
    have h := (simemRetryGo_const s backoff hs (List.range' 1 maxRetries) none).1
    simpa [httpGetWithRetries] using h

/-- Claim C2, witness: `_retry_get` against a constant 404 issues exactly
one GET; `_http_get_with_retries` against a constant 503 with
`max_retries = 3` issues three. -/
theorem fatal_4xx_immediate_amended_witness :
    (retryGet (fun _ => .resp 404)).gets = 1 ∧
    (httpGetWithRetries (fun _ => .resp 503) 3 2).gets = 3 :=
  ⟨(fatal_4xx_immediate_amended.1 (fun _ => .resp 404) 404 rfl (by decide) (by decide)).1,
   fatal_4xx_immediate_amended.2 503 3 2 (by decide) (by decide)⟩

/-- Claim C3, counterexample: the SiMEM helper's delays are NOT a doubling
sequence — against a constant 503 with `max_retries = 4` and configured
initial delay 2 it sleeps `[2, 4, 6]` (linear `backoff * attempt`), not
the doubling sequence `[2, 4, 8]`. -/
theorem simem_linear_backoff_counterexample :
    (httpGetWithRetries (fun _ => .resp 503) 4 2).sleeps = [2, 4, 6] ∧
    ¬ (httpGetWithRetries (fun _ => .resp 503) 4 2).sleeps = [2, 4, 8] := by
  decide

/-- Claim C3 (amended): against a source constantly answering 503, the
SiMEM helper issues exactly `max_retries` GET calls with linearly growing
delays `backoff·1, …, backoff·(max_retries−1)` and then raises an error
carrying the last status; the DANE helper issues exactly 5 GET calls
(the bound is hardcoded) with doubling delays `1, 2, 4, 8, 16` starting
from its initial delay 1, and then raises an error carrying 503. -/
theorem retry_503_exhausts_amended (maxRetries backoff : Nat) (h : 1 ≤ maxRetries) :
    (httpGetWithRetries (fun _ => .resp 503) maxRetries backoff).gets = maxRetries ∧
    (httpGetWithRetries (fun _ => .resp 503) maxRetries backoff).sleeps
      = (List.range' 1 (maxRetries - 1)).map (fun k => backoff * k) ∧
    (httpGetWithRetries (fun _ => .resp 503) maxRetries backoff).result = .err (.http 503) ∧
    (retryGet (fun _ => .resp 503)).gets = 5 ∧
    (retryGet (fun _ => .resp 503)).sleeps = [1, 2, 4, 8, 16] ∧
    (retryGet (fun _ => .resp 503)).result = .err (.http 503) := by
  have hs : ¬ ((200:Nat) ≤ 503 ∧ 503 < 300) := by omega
  obtain ⟨hg, hsl, hr⟩ := simemRetryGo_const 503 backoff hs (List.range' 1 maxRetries) none
  have hne : List.range' 1 maxRetries ≠ [] := by
    simp [← List.length_pos_iff_ne_nil]
    omega
  refine ⟨?_, ?_, ?_, ?_, ?_, ?_⟩
  · simpa [httpGetWithRetries] using hg
  · rw [httpGetWithRetries, hsl, range'_dropLast]
  · simpa [httpGetWithRetries] using hr hne
  · decide
  · decide
  · decide

/-- Claim C3, witness: with `max_retries = 3` and initial delay 2 against
a constant 503, the SiMEM helper issues 3 GETs, sleeps `[2, 4]` and
raises an error carrying 503. -/
theorem retry_503_exhausts_amended_witness :
    (httpGetWithRetries (fun _ => .resp 503) 3 2).gets = 3 ∧
    (httpGetWithRetries (fun _ => .resp 503) 3 2).sleeps = [2, 4] ∧
    (httpGetWithRetries (fun _ => .resp 503) 3 2).result = .err (.http 503) := by
  obtain ⟨hg, hsl, hr, -⟩ := retry_503_exhausts_amended 3 2 (by decide)
  exact ⟨hg, by rw [hsl]; decide, hr⟩

/-! ## Lemmas about first-seen accumulation -/

/-- Membership in a `foldl addFirstSeen` accumulation. -/
lemma mem_foldl_addFirstSeen {α : Type} [DecidableEq α] (l : List α) :
    ∀ (acc : List α) (x : α), x ∈ l.foldl addFirstSeen acc ↔ x ∈ acc ∨ x ∈ l := by
  induction l with
  | nil => intro acc x; simp
  | cons a rest ih =>
    intro acc x
    rw [List.foldl_cons, ih]
    by_cases ha : a ∈ acc
    · simp only [addFirstSeen, if_pos ha, List.mem_cons]
      constructor
      · rintro (h | h)
        · exact Or.inl h
        · exact Or.inr (Or.inr h)
      · rintro (h | rfl | h)
        · exact Or.inl h
        · exact Or.inl ha
        · exact Or.inr h
    · simp [addFirstSeen, ha, or_assoc]

/-- `firstSeenList` keeps exactly the elements of its input. -/
lemma mem_firstSeenList {α : Type} [DecidableEq α] (l : List α) (x : α) :
    x ∈ firstSeenList l ↔ x ∈ l := by
  rw [firstSeenList, mem_foldl_addFirstSeen]
  simp

/-- A `foldl addFirstSeen` accumulation stays duplicate-free. -/
lemma nodup_foldl_addFirstSeen {α : Type} [DecidableEq α] (l : List α) :
    ∀ acc : List α, acc.Nodup → (l.foldl addFirstSeen acc).Nodup := by
  induction l with
  | nil => intro acc h; simpa
  | cons a rest ih =>
    intro acc h
    rw [List.foldl_cons]
    refine ih _ ?_
    by_cases ha : a ∈ acc
    · simpa [addFirstSeen, ha]
    · simp [addFirstSeen, ha, List.nodup_append, h]

/-- `firstSeenList` is duplicate-free. -/
lemma nodup_firstSeenList {α : Type} [DecidableEq α] (l : List α) :
    (firstSeenList l).Nodup :=
  nodup_foldl_addFirstSeen l [] List.nodup_nil

/-! ## Claim theorems: fallback type inference -/

/-- Claim C4, counterexample: a 10-value column with no nulls where exactly
9 of 10 values (90%) parse as datetimes — the claimed "at least 90% of
non-null values" rule commits to datetime, but `_fallback_infer_types`
requires strictly more than 90% and keeps the column as text. -/
theorem infer_threshold_boundary_counterexample :
    fallbackCommitsDatetime (fun s => s == "d")
      (List.replicate 9 (some "d") ++ [some "x"]) = false ∧
    specCommitsDatetime (fun s => s == "d")
      (List.replicate 9 (some "d") ++ [some "x"]) = true := by
  decide

/-- Claim C4 (amended): fallback inference commits a column to datetime if
and only if strictly more than 90% of ALL its cells parse successfully —
nulls parse to `NaT` and count against the ratio, so the denominator is
the full cell count, not the non-null count.  On a column without nulls:
95% parsed commits, 85% does not, and the 90% boundary itself does not. -/
theorem infer_threshold_amended (parseDT : String → Option Int) (strip : Bool)
    (cells : List (Option String)) :
    ((fallbackInferColumn parseDT strip cells).isDatetime = true ↔
      10 * cells.countP (fun c => (c.bind parseDT).isSome) > 9 * cells.length) ∧
    (fallbackInferColumn (fun s => if s = "d" then some 0 else none) true
      (List.replicate 19 (some "d") ++ [some "x"])).isDatetime = true ∧
    (fallbackInferColumn (fun s => if s = "d" then some 0 else none) true
      (List.replicate 17 (some "d") ++ List.replicate 3 (some "x"))).isDatetime = false ∧
    (fallbackInferColumn (fun s => if s = "d" then some 0 else none) true
      (List.replicate 18 (some "d") ++ List.replicate 2 (some "x"))).isDatetime = false := by
  refine ⟨?_, by decide, by decide, by decide⟩
  simp only [fallbackInferColumn, List.countP_map, List.length_map]
  split
  · next h => simpa [InferredCol.isDatetime, Function.comp] using h
  · next h =>
    simp only [InferredCol.isDatetime, Bool.false_eq_true, false_iff]
    simpa [Function.comp] using h

/-! ## Claim theorems: record flattening -/

/-- Claim C5, counterexample: flattening `[{"a":{"b":1}}, {"a":{"c":2}}]`
produces the columns `["a_b", "a_c"]` — `fetch_dataset_and_clean` calls
`pd.json_normalize(records, sep="_")`, joining nested paths with an
underscore, not the claimed dotted names `["a.b", "a.c"]`. -/
theorem flatten_dotted_names_counterexample :
    (simemNormalize [[("a", Json.obj [("b", Json.num 1)])],
        [("a", Json.obj [("c", Json.num 2)])]]).columns = ["a_b", "a_c"] ∧
    ¬ (simemNormalize [[("a", Json.obj [("b", Json.num 1)])],
        [("a", Json.obj [("c", Json.num 2)])]]).columns = ["a.b", "a.c"] := by
  decide

/-- Claim C5 (amended): flattening `[{"a":{"b":1}}, {"a":{"c":2}}]` yields
rows `{a_b:1, a_c:null}` and `{a_b:null, a_c:2}` with column order
`[a_b, a_c]` — nested maps produce underscore-joined path names (the
separator is `"_"`, not `"."`), a key missing from a record yields the
null marker rather than an error, and the column set is the union across
records in first-seen order. -/
theorem flatten_underscore_amended :
    simemNormalize [[("a", Json.obj [("b", Json.num 1)])],
        [("a", Json.obj [("c", Json.num 2)])]]
      = { columns := ["a_b", "a_c"],
          rows := [[Json.num 1, Json.null], [Json.null, Json.num 2]] } ∧
    (∀ (sep : String) (records : List (List (String × Json))) (c : String),
        c ∈ (jsonNormalize sep records).columns ↔
          ∃ r ∈ records, ∃ v, (c, v) ∈ flattenPairs sep r) := by
  refine ⟨?_, ?_⟩
  · rfl
  intro sep records c
  rw [jsonNormalize]
  simp only [mem_firstSeenList, List.mem_flatten, List.mem_map]
  constructor
  · rintro ⟨keys, ⟨flatRec, ⟨r, hr, rfl⟩, rfl⟩, hc⟩
    obtain ⟨p, hp, rfl⟩ := List.mem_map.mp hc
    exact ⟨r, hr, p.2, hp⟩
  · rintro ⟨r, hr, v, hv⟩
    exact ⟨(flattenPairs sep r).map Prod.fst, ⟨flattenPairs sep r, ⟨r, hr, rfl⟩, rfl⟩,
      List.mem_map.mpr ⟨(c, v), hv, rfl⟩⟩

/-! ## Claim theorems: client-side date filter -/

/-- Claim C6 (confirmed): the date-range filter is inclusive on both ends
and a date-only end bound is extended to end-of-day — with start
`2025-01-10` and end `2025-01-10`, a row is kept exactly when its
timestamp lies anywhere within that calendar day, and a row at
`2025-01-11T00:00:00` is excluded. -/
theorem date_filter_whole_day_inclusive :
    (∀ t : Int, dateMask (some jan10_2025) (some jan10_2025) (some t) = true ↔
        jan10_2025 ≤ t ∧ t < jan11_2025) ∧
    dateMask (some jan10_2025) (some jan10_2025) (some jan11_2025) = false ∧
    (∀ (rows : List (Option Int)) (t : Int),
        some t ∈ applyClientDateFilter rows (some jan10_2025) (some jan10_2025) ↔
          some t ∈ rows ∧ jan10_2025 ≤ t ∧ t < jan11_2025) := by
  have hmask : ∀ t : Int,
      dateMask (some jan10_2025) (some jan10_2025) (some t) = true ↔
        jan10_2025 ≤ t ∧ t < jan11_2025 := by
    intro t
    simp only [dateMask, Bool.and_eq_true, decide_eq_true_eq]
    rw [jan10_2025, jan11_2025, endOfDayDelta]
    omega
  refine ⟨hmask, ?_, ?_⟩
  · have h := hmask jan11_2025
    simp only [lt_irrefl, and_false, iff_false, Bool.not_eq_true] at h
    exact h
  · intro rows t
    rw [applyClientDateFilter, List.mem_filter, hmask]

/-! ## Claim theorems: long-to-wide pivot -/

/-- Claim C7, counterexample: when the first source row of a colliding
`(entity, label)` pair carries a null value and a later row carries 7,
`pivot_table(aggfunc="first")` populates the cell with 7 — `GroupBy.first`
returns the first NON-null value — whereas the claimed "first value
encountered" tie-break (`specPivotFirstCell`) leaves the cell
unpopulated. -/
theorem pivot_first_encountered_counterexample :
    pivotFirstCell
      [((some "d" : Option String), (some "x" : Option String), (none : Option Int)),
       (some "d", some "x", some 7)] "d" "x" = some 7 ∧
    specPivotFirstCell
      [((some "d" : Option String), (some "x" : Option String), (none : Option Int)),
       (some "d", some "x", some 7)] "d" "x" = none ∧
    ¬ ((some 7 : Option Int) = none) := by
  decide

/-- Claim C7 (amended): in the wide view built with
`pivot_table(..., aggfunc="first")`, the row keys are duplicate-free and
cover exactly the entities owning at least one row with non-null keys
and a non-null value (null index keys and never-populated groups are
dropped); an already-populated cell is never changed by later source
rows — the collision resolves to the first NON-null value encountered —
and a null first value is skipped rather than kept. -/
theorem pivot_first_nonnull_amended {E S V : Type} [DecidableEq E] [DecidableEq S]
    (rows extra : List (Option E × Option S × Option V)) (e : E) (s : S) (v : V) :
    (pivotRowKeys rows).Nodup ∧
    (∀ e' : E, e' ∈ pivotRowKeys rows ↔
        ∃ s' v', ((some e', some s', some v') : Option E × Option S × Option V) ∈ rows) ∧
    (pivotFirstCell rows e s = some v → pivotFirstCell (rows ++ extra) e s = some v) ∧
    pivotFirstCell (((some e, some s, none) : Option E × Option S × Option V) :: rows) e s
      = pivotFirstCell rows e s := by
  refine ⟨nodup_firstSeenList _, ?_, ?_, ?_⟩
  · intro e'
    rw [pivotRowKeys, mem_firstSeenList, List.mem_filterMap]
    constructor
    · rintro ⟨⟨oe, os, ov⟩, hr, hpk⟩
      cases oe <;> cases os <;> cases ov <;> simp [populatedKey] at hpk
      subst hpk
      exact ⟨_, _, hr⟩
    · rintro ⟨s', v', hmem⟩
      exact ⟨(some e', some s', some v'), hmem, rfl⟩
  · intro h
    rw [pivotFirstCell] at h ⊢
    rw [List.filter_append, List.filterMap_append]
    cases hL : (rows.filter fun r => decide (r.1 = some e ∧ r.2.1 = some s)).filterMap
        (fun r => r.2.2) with
    | nil => rw [hL] at h; simp at h
    | cons a as =>
      rw [hL] at h
      simpa using h
  · simp [pivotFirstCell, List.filter_cons, List.filterMap_cons]

/-- Claim C7, witness: a duplicate `(entity, label)` source row appended
after a populated first one leaves the wide cell at the first value. -/
theorem pivot_first_nonnull_amended_witness :
    (pivotRowKeys [((some "d" : Option String), (some "x" : Option String),
        some (5 : Int))]).Nodup ∧
    pivotFirstCell
      ([((some "d" : Option String), (some "x" : Option String), some (5 : Int))] ++
        [(some "d", some "x", some 7)]) "d" "x" = some 5 := by
  obtain ⟨h1, -, h3, -⟩ := pivot_first_nonnull_amended
    [((some "d" : Option String), (some "x" : Option String), some (5 : Int))]
    [((some "d" : Option String), (some "x" : Option String), some (7 : Int))] "d" "x" 5
  exact ⟨h1, h3 (by decide)⟩

/-! ## Claim theorems: schema-driven coercion -/

/-- Claim C8 (confirmed): `_map_types_by_schema` is total — it never raises
on a single bad value: the output has one column per input column with
every row intact, and a value unparsable under a declared `fecha` or
`fecha hora` type coerces to null.  (In fact the function never raises at
all: the closing `rename` tolerates even colliding canonical names, so
the "raises only if the column set is structurally invalid" clause holds
vacuously.) -/
theorem coercion_never_raises (parseDT : String → Option Int) (strip : Bool) :
    (∀ (df : List (String × List (Option String)))
        (schemaCols : List (Option String × Option String)) (toSnake : Bool),
        (mapTypesBySchema parseDT df schemaCols toSnake strip).map (fun c => c.2.length)
          = df.map (fun c => c.2.length)) ∧
    (∀ v : String, parseDT v = none →
        coerceCell parseDT strip (some "fecha") (some v) = .date none ∧
        coerceCell parseDT strip (some "fecha hora") (some v) = .datetime none) := by
  constructor
  · intro df schemaCols toSnake
    simp [mapTypesBySchema, List.map_map, Function.comp]
  · intro v hv
    constructor <;> simp [coerceCell, hv]

/-- Claim C8, witness: with a parser rejecting `"31/02/2025"`, both date
and datetime coercion of that value yield null. -/
theorem coercion_never_raises_witness :
    coerceCell (fun _ => none) true (some "fecha") (some "31/02/2025") = .date none ∧
    coerceCell (fun _ => none) true (some "fecha hora") (some "31/02/2025")
      = .datetime none :=
  (coercion_never_raises (fun _ => none) true).2 "31/02/2025" rfl

/-! ## Claim theorems: column subset -/

/-- Claim C9, counterexample: requesting only the absent column `"zz"`
from a table with column `"a"` returns the full table — the intersection
of requested and present columns is empty, but `if keep:` skips
subsetting instead of returning the empty intersection the claim
demands. -/
theorem subset_empty_intersection_counterexample :
    subsetColumns ["a"] ["zz"] false = ["a"] ∧
    ¬ subsetColumns ["a"] ["zz"] false = ([] : List String) := by
  decide

/-- Claim C9 (amended): requested names are canonicalised with the same
`_snake_case` rule used for renaming and missing ones are dropped with a
warning; when at least one requested column is present the result is
exactly the intersection in requested order, but when the intersection is
empty the subset step is skipped and the table keeps all its columns. -/
theorem subset_intersection_amended (cols subset : List String) (toSnake : Bool) :
    ((subset.map fun c => if toSnake then snakeCase c else c).filter
        (fun c => decide (c ∈ cols)) ≠ [] →
      subsetColumns cols subset toSnake
        = (subset.map fun c => if toSnake then snakeCase c else c).filter
            (fun c => decide (c ∈ cols))) ∧
    ((subset.map fun c => if toSnake then snakeCase c else c).filter
        (fun c => decide (c ∈ cols)) = [] →
      subsetColumns cols subset toSnake = cols) := by
  constructor <;> intro h <;> simp [subsetColumns, List.isEmpty_iff, h]

/-- Claim C9, witness: requesting `["B", "zz"]` (canonicalised to
`["b", "zz"]`) from columns `["a", "b"]` returns exactly `["b"]`. -/
theorem subset_intersection_amended_witness :
    subsetColumns ["a", "b"] ["B", "zz"] true = ["b"] := by
  have h := (subset_intersection_amended ["a", "b"] ["B", "zz"] true).1 (by decide)
  exact h.trans (by decide)

/-! ## Claim theorems: cache gate -/

/-- Claim C10 (confirmed): `_maybe_use_cache` resolves exactly as claimed —
no local artifact is a miss; with a remote checksum, the local bytes'
digest gates reuse (match is a hit returning the bytes, mismatch is a
stale miss); without a remote checksum, presence of the local file alone
is a hit. -/
theorem cache_gate_checksum (md5 : List Nat → String) (fs : String → Option (List Nat))
    (outDir : String) (meta : FileMeta) :
    (fs (outDir ++ "/" ++ safeName meta.label) = none →
        maybeUseCache md5 fs outDir meta = none) ∧
    (∀ b, fs (outDir ++ "/" ++ safeName meta.label) = some b →
        (∀ c, meta.checksum = some c →
            (md5 b = c → maybeUseCache md5 fs outDir meta = some b) ∧
            (md5 b ≠ c → maybeUseCache md5 fs outDir meta = none)) ∧
        (meta.checksum = none → maybeUseCache md5 fs outDir meta = some b)) := by
  refine ⟨fun h => ?_, fun b hb => ⟨fun c hc => ⟨fun hm => ?_, fun hm => ?_⟩, fun hc => ?_⟩⟩ <;>
    simp [maybeUseCache, *]

/-- Claim C10, witness: concrete hits and misses — a checksum match is a
hit, a mismatch is a miss, and a missing checksum makes presence alone a
hit. -/
theorem cache_gate_checksum_witness :
    maybeUseCache (fun _ => "h") (fun _ => some [1, 2]) "out"
      ⟨1, "pwt1100.dta", "", none, some "h"⟩ = some [1, 2] ∧
    maybeUseCache (fun _ => "h") (fun _ => some [1, 2]) "out"
      ⟨1, "pwt1100.dta", "", none, some "g"⟩ = none ∧
    maybeUseCache (fun _ => "h") (fun _ => some [1, 2]) "out"
      ⟨1, "pwt1100.dta", "", none, none⟩ = some [1, 2] := by
  refine ⟨?_, ?_, ?_⟩
  · exact (((cache_gate_checksum (fun _ => "h") (fun _ => some [1, 2]) "out"
      ⟨1, "pwt1100.dta", "", none, some "h"⟩).2 [1, 2] rfl).1 "h" rfl).1 rfl
  · exact (((cache_gate_checksum (fun _ => "h") (fun _ => some [1, 2]) "out"
      ⟨1, "pwt1100.dta", "", none, some "g"⟩).2 [1, 2] rfl).1 "g" rfl).2 (by decide)
  · exact ((cache_gate_checksum (fun _ => "h") (fun _ => some [1, 2]) "out"
      ⟨1, "pwt1100.dta", "", none, none⟩).2 [1, 2] rfl).2 rfl

/-! ## Lemmas about the orchestrator loop -/

/-- When every remaining unit processes cleanly (fetch and both parses),
the per-unit loop of `run_extraction` succeeds and appends exactly one
study row per unit. -/
lemma runLoop_all_ok (em : Nat → Except FetchExc Json) (ns : Option (List String))
    (nr lr : Option (String → Bool)) (fsx : Option (List Int)) (ids : List Nat) :
    ∀ acc : List VarRow × List StudyRow,
      (∀ sid ∈ ids, unitSucceeds em sid) →
      ∃ vars studies, runLoop em ns nr lr fsx acc ids = .ok (vars, studies) ∧
        studies.length = acc.2.length + ids.length := by
  induction ids with
  | nil => intro acc _; exact ⟨acc.1, acc.2, rfl, by simp⟩
  | cons sid rest ih =>
    intro acc hall
    obtain ⟨md, st, rows, hmd, hst, hrows⟩ := hall sid (List.mem_cons_self sid rest)
    obtain ⟨vars, studies, hrun, hlen⟩ :=
      ih (acc.1 ++ rows.filter (varFilterOk ns nr lr fsx), acc.2 ++ [st])
        (fun s hs => hall s (List.mem_cons_of_mem sid hs))
    refine ⟨vars, studies, ?_, ?_⟩
    · simp only [runLoop, hmd, hst, hrows]
      exact hrun
    · simp only [List.length_append, List.length_singleton] at hlen
      simp [hlen, List.length_cons]
      omega

/-- When every unit before some point processes cleanly and the loop body
aborts at that point (regardless of the accumulator and of the units
after it), the whole loop aborts with that error: the loop body has no
exception handler. -/
lemma runLoop_abort (em : Nat → Except FetchExc Json) (ns : Option (List String))
    (nr lr : Option (String → Bool)) (fsx : Option (List Int)) (pre : List Nat) :
    ∀ (acc : List VarRow × List StudyRow) (sid : Nat) (post : List Nat) (err : RunErr),
      (∀ s ∈ pre, unitSucceeds em s) →
      (∀ (acc2 : List VarRow × List StudyRow) (post2 : List Nat),
          runLoop em ns nr lr fsx acc2 (sid :: post2) = .error err) →
      runLoop em ns nr lr fsx acc (pre ++ sid :: post) = .error err := by
  induction pre with
  | nil =>
    intro acc sid post err _ habort
    rw [List.nil_append]
    exact habort acc post
  | cons p rest ih =>
    intro acc sid post err hall habort
    obtain ⟨md, st, rows, hmd, hst, hrows⟩ := hall p (List.mem_cons_self p rest)
    rw [List.cons_append]
    simp only [runLoop, hmd, hst, hrows]
    exact ih _ sid post err (fun s hs => hall s (List.mem_cons_of_mem p hs)) habort

/-! ## Claim theorems: pipeline orchestrator -/

/-- Claim C1, counterexample: a batch of 3 units where unit 2 raises a
fatal-request error (HTTP 404) makes `run_extraction` itself raise — the
result is the propagated error, not a partial result with 2 included
units and 1 error entry: the per-unit loop catches nothing. -/
theorem run_extraction_unit_abort_counterexample :
    runExtraction (fun sid => if sid = 2 then .error (.http 404) else .ok (.obj []))
      [] none (some [1, 2, 3]) none none none none
      = .error (.fetchFailure (.http 404)) := by
  rfl

/-- Claim C1 (amended): `run_extraction` has no per-unit error recovery.
When every unit processes cleanly — its fetch succeeds and its payload
makes both parse functions complete without raising — the batch succeeds
with exactly one study row per unit; but the first unit that raises
(every earlier unit having processed cleanly) aborts the whole batch
with the propagated exception, whether it is a fetch error, an
`AttributeError`/`TypeError` inside `parse_study`, or one inside
`parse_variables`: nothing is logged, no error list exists in the
result, and the remaining units are never processed. -/
theorem run_extraction_unit_failure_amended (em : Nat → Except FetchExc Json)
    (searchCat : List Nat) (q : Option String) (varNames : Option (List String))
    (nameRx labRx : Option (String → Bool)) (fileIds : Option (List Int)) :
    (∀ (x : Nat) (xs : List Nat),
        (∀ sid ∈ x :: xs, unitSucceeds em sid) →
        ∃ vars studies,
          runExtraction em searchCat q (some (x :: xs)) varNames nameRx labRx fileIds
            = .ok (vars, studies) ∧ studies.length = (x :: xs).length) ∧
    (∀ (pre : List Nat) (sid : Nat) (post : List Nat) (e : FetchExc),
        (∀ s ∈ pre, unitSucceeds em s) → em sid = .error e →
        runExtraction em searchCat q (some (pre ++ sid :: post)) varNames nameRx labRx fileIds
          = .error (.fetchFailure e)) ∧
    (∀ (pre : List Nat) (sid : Nat) (post : List Nat) (md : Json) (pe : PyExc),
        (∀ s ∈ pre, unitSucceeds em s) → em sid = .ok md →
        parse_study md sid = .error pe →
        runExtraction em searchCat q (some (pre ++ sid :: post)) varNames nameRx labRx fileIds
          = .error (.parseFailure pe)) ∧
    (∀ (pre : List Nat) (sid : Nat) (post : List Nat) (md : Json) (st : StudyRow)
        (pe : PyExc),
        (∀ s ∈ pre, unitSucceeds em s) → em sid = .ok md →
        parse_study md sid = .ok st → parse_variables md sid = .error pe →
        runExtraction em searchCat q (some (pre ++ sid :: post)) varNames nameRx labRx fileIds
          = .error (.parseFailure pe)) := by
  have habort : ∀ (pre : List Nat) (sid : Nat) (post : List Nat) (err : RunErr),
      (∀ s ∈ pre, unitSucceeds em s) →
      (∀ (acc2 : List VarRow × List StudyRow) (post2 : List Nat),
          runLoop em (varNames.map fun l => l.map fun s => s.toLower) nameRx labRx
            (truthyFileSet fileIds) acc2 (sid :: post2) = .error err) →
      runExtraction em searchCat q (some (pre ++ sid :: post)) varNames nameRx labRx fileIds
        = .error err := by
    intro pre sid post err hall hab
    have hne : (pre ++ sid :: post).isEmpty = false := by
      simp [List.isEmpty_iff]
    rw [runExtraction.eq_def]
    simp only [Option.getD_some, hne, Bool.false_eq_true, if_false]
    exact runLoop_abort em _ nameRx labRx _ pre ([], []) sid post err hall hab
  refine ⟨?_, ?_, ?_, ?_⟩
  · intro x xs hall
    obtain ⟨vars, studies, hrun, hlen⟩ :=
      runLoop_all_ok em (varNames.map fun l => l.map fun s => s.toLower) nameRx labRx
        (truthyFileSet fileIds) (x :: xs) ([], []) hall
    refine ⟨vars, studies, ?_, by simpa using hlen⟩
    rw [runExtraction.eq_def]
    simp only [Option.getD_some, List.isEmpty_cons, Bool.false_eq_true, if_false]
    exact hrun
  · intro pre sid post e hall herr
    exact habort pre sid post _ hall fun acc2 post2 => by
      simp only [runLoop, herr]
  · intro pre sid post md pe hall hmd hps
    exact habort pre sid post _ hall fun acc2 post2 => by
      simp only [runLoop, hmd, hps]
  · intro pre sid post md st pe hall hmd hst hpv
    exact habort pre sid post _ hall fun acc2 post2 => by
      simp only [runLoop, hmd, hst, hpv]

/-- Claim C1, witness: an all-ok batch of 2 units yields 2 study rows; a
batch whose second fetch raises HTTP 500 propagates that error; and a
batch whose payload is a bare list (so `md.get` raises
`AttributeError` inside `parse_study`) propagates that parse error. -/
theorem run_extraction_unit_failure_amended_witness :
    (∃ vars studies,
        runExtraction (fun _ => .ok (.obj [])) [] none (some [5, 7]) none none none none
          = .ok (vars, studies) ∧ studies.length = 2) ∧
    runExtraction (fun sid => if sid = 2 then .error (.http 500) else .ok (.obj []))
      [] none (some [1, 2]) none none none none
      = .error (.fetchFailure (.http 500)) ∧
    runExtraction (fun _ => .ok (.arr [])) [] none (some [1]) none none none none
      = .error (.parseFailure .attributeError) := by
  refine ⟨?_, ?_, ?_⟩
  · exact (run_extraction_unit_failure_amended (fun _ => .ok (.obj []))
      [] none none none none none).1 5 [7] (fun sid _ => ⟨.obj [], _, _, rfl, rfl, rfl⟩)
  · refine (run_extraction_unit_failure_amended
      (fun sid => if sid = 2 then .error (.http 500) else .ok (.obj []))
      [] none none none none none).2.1 [1] 2 [] (.http 500) ?_ rfl
    intro s hs
    have : s = 1 := by simpa using hs
    subst this
    exact ⟨.obj [], _, _, rfl, rfl, rfl⟩
  · exact (run_extraction_unit_failure_amended (fun _ => .ok (.arr []))
      [] none none none none none).2.2.1 [] 1 [] (.arr []) .attributeError
      (fun s hs => absurd hs (List.not_mem_nil s)) rfl rfl

end Ingesta
